import Mathlib

/-!
Verification of the glhf compute-shader module (compute.go) and of the
binder / growable-buffer layer it relies on.

The Go code is shallowly embedded:

* OpenGL is a stateful external API.  All reads the code performs from the
  context (compile status, info logs, link status, uniform locations, the
  identifiers returned by the create calls) are modelled by an environment
  record `GLEnv`; all writes the code performs to the context are recorded
  as an explicit trace of `GLCall` values in program order, with Go
  `defer`red calls appended at function exit in LIFO order.
* Go panics (failing slice index, failing type assertion, explicit `panic`)
  are modelled by the `GoOutcome` type.
* Go `interface{}` values passed to `SetUniformAttr` are modelled by the
  closed sum `GLValue`, one constructor per dynamic type that occurs in the
  type switch; numeric payloads are carried as `Nat` bit patterns, since no
  claim inspects arithmetic on them.
* `runtime.SetFinalizer` registration is modelled by the `finalizer` field
  of the construction result; `mainthread.CallNonBlock` / `mainthread.Call`
  submissions are recorded as `MainthreadCall` values.
-/

/-- Go control-flow outcome: a normal return or a run-time panic carrying
the panic message. -/
inductive GoOutcome (α : Type) where
  | ret (a : α)
  | panic (msg : String)
deriving DecidableEq

/-- OpenGL calls issued by the embedded code, in program order. -/
inductive GLCall where
  | createShader (shaderType : Nat)
  | shaderSource (shader : Nat) (src : String)
  | compileShader (shader : Nat)
  | deleteShader (shader : Nat)
  | createProgram
  | attachShader (program shader : Nat)
  | linkProgram (program : Nat)
  | deleteProgram (program : Nat)
  | getUniformLocation (program : Nat) (name : String)
  | useProgram (program : Nat)
  | uniform1iv (loc : Int) (v : Nat)
  | uniform1fv (loc : Int) (v : Nat)
  | uniform2fv (loc : Int) (v : Nat)
  | uniform3fv (loc : Int) (v : Nat)
  | uniform4fv (loc : Int) (v : Nat)
  | uniformMatrix2fv (loc : Int) (v : Nat)
  | uniformMatrix2x3fv (loc : Int) (v : Nat)
  | uniformMatrix2x4fv (loc : Int) (v : Nat)
  | uniformMatrix3fv (loc : Int) (v : Nat)
  | uniformMatrix3x2fv (loc : Int) (v : Nat)
  | uniformMatrix3x4fv (loc : Int) (v : Nat)
  | uniformMatrix4fv (loc : Int) (v : Nat)
  | uniformMatrix4x2fv (loc : Int) (v : Nat)
  | uniformMatrix4x3fv (loc : Int) (v : Nat)
deriving DecidableEq

/-- A job handed to the mainthread package: `call` is the blocking
submission (`mainthread.Call`), `callNonBlock` the non-blocking one
(`mainthread.CallNonBlock`).  The payload is the trace of GL calls the
submitted closure performs when the graphics thread runs it. -/
inductive MainthreadCall where
  | call (job : List GLCall)
  | callNonBlock (job : List GLCall)
deriving DecidableEq

/-- GL enumerant `gl.VERTEX_SHADER` (0x8B31). -/
def glVERTEX_SHADER : Nat := 35633

/-- GL enumerant `gl.FRAGMENT_SHADER` (0x8B30). -/
def glFRAGMENT_SHADER : Nat := 35632

/-- GL enumerant `gl.COMPUTE_SHADER` (0x91B9). -/
def glCOMPUTE_SHADER : Nat := 37305

/-- GL enumerant `gl.CURRENT_PROGRAM` (0x8B8D), used as the binder
restore location of a Compute program. -/
def glCURRENT_PROGRAM : Nat := 35725

/-- Modelled from the spec: the repository file attr.go that declares
`AttrType` and its constants is not under src/.  Per the spec the type tag
set is a closed set of scalar / vector / matrix kinds plus pointer
variants; Go declares `type AttrType int`, so the tag is an integer and
values outside the declared constant set exist.  The constants below are
assigned distinct integers in the order the SetUniformAttr switch lists
them; their names carry a `t` prefix because the Go names `Int` and
`Float` collide with core Lean types. -/
def AttrType : Type := Int

instance : DecidableEq AttrType := inferInstanceAs (DecidableEq Int)

def tInt : AttrType := (0 : Int)
def tIntp : AttrType := (1 : Int)
def tFloat : AttrType := (2 : Int)
def tFloatp : AttrType := (3 : Int)
def tVec2 : AttrType := (4 : Int)
def tVec2p : AttrType := (5 : Int)
def tVec3 : AttrType := (6 : Int)
def tVec3p : AttrType := (7 : Int)
def tVec4 : AttrType := (8 : Int)
def tVec4p : AttrType := (9 : Int)
def tMat2 : AttrType := (10 : Int)
def tMat2p : AttrType := (11 : Int)
def tMat23 : AttrType := (12 : Int)
def tMat23p : AttrType := (13 : Int)
def tMat24 : AttrType := (14 : Int)
def tMat24p : AttrType := (15 : Int)
def tMat3 : AttrType := (16 : Int)
def tMat3p : AttrType := (17 : Int)
def tMat32 : AttrType := (18 : Int)
def tMat32p : AttrType := (19 : Int)
def tMat34 : AttrType := (20 : Int)
def tMat34p : AttrType := (21 : Int)
def tMat4 : AttrType := (22 : Int)
def tMat4p : AttrType := (23 : Int)
def tMat42 : AttrType := (24 : Int)
def tMat42p : AttrType := (25 : Int)
def tMat43 : AttrType := (26 : Int)
def tMat43p : AttrType := (27 : Int)

/-- One named, typed attribute slot (Go struct `Attr`). -/
structure Attr where
  name : String
  type : AttrType
deriving DecidableEq

/-- Ordered attribute format (Go `type AttrFormat []Attr`). -/
def AttrFormat : Type := List Attr

instance : DecidableEq AttrFormat := inferInstanceAs (DecidableEq (List Attr))

/-- Dynamic types that can reach the `SetUniformAttr` type switch, one
constructor per Go type assertion target; the `p` constructors are the
pointer types (`*int32`, `*mgl32.Vec2`, ...).  Payloads are opaque bit
patterns. -/
inductive GLValue where
  | vInt32 (v : Nat)
  | vPInt32 (v : Nat)
  | vFloat32 (v : Nat)
  | vPFloat32 (v : Nat)
  | vVec2 (v : Nat)
  | vPVec2 (v : Nat)
  | vVec3 (v : Nat)
  | vPVec3 (v : Nat)
  | vVec4 (v : Nat)
  | vPVec4 (v : Nat)
  | vMat2 (v : Nat)
  | vPMat2 (v : Nat)
  | vMat23 (v : Nat)
  | vPMat23 (v : Nat)
  | vMat24 (v : Nat)
  | vPMat24 (v : Nat)
  | vMat3 (v : Nat)
  | vPMat3 (v : Nat)
  | vMat32 (v : Nat)
  | vPMat32 (v : Nat)
  | vMat34 (v : Nat)
  | vPMat34 (v : Nat)
  | vMat4 (v : Nat)
  | vPMat4 (v : Nat)
  | vMat42 (v : Nat)
  | vPMat42 (v : Nat)
  | vMat43 (v : Nat)
  | vPMat43 (v : Nat)
deriving DecidableEq

/-- The attribute type tag a dynamic value satisfies: `GLValue.tag v = t`
exactly when the type assertion performed by the switch case for tag `t`
succeeds on `v`. -/
def GLValue.tag : GLValue → AttrType
  | .vInt32 _ => tInt
  | .vPInt32 _ => tIntp
  | .vFloat32 _ => tFloat
  | .vPFloat32 _ => tFloatp
  | .vVec2 _ => tVec2
  | .vPVec2 _ => tVec2p
  | .vVec3 _ => tVec3
  | .vPVec3 _ => tVec3p
  | .vVec4 _ => tVec4
  | .vPVec4 _ => tVec4p
  | .vMat2 _ => tMat2
  | .vPMat2 _ => tMat2p
  | .vMat23 _ => tMat23
  | .vPMat23 _ => tMat23p
  | .vMat24 _ => tMat24
  | .vPMat24 _ => tMat24p
  | .vMat3 _ => tMat3
  | .vPMat3 _ => tMat3p
  | .vMat32 _ => tMat32
  | .vPMat32 _ => tMat32p
  | .vMat34 _ => tMat34
  | .vPMat34 _ => tMat34p
  | .vMat4 _ => tMat4
  | .vPMat4 _ => tMat4p
  | .vMat42 _ => tMat42
  | .vPMat42 _ => tMat42p
  | .vMat43 _ => tMat43
  | .vPMat43 _ => tMat43p

/-- The closed set of attribute type tags the SetUniformAttr switch
supports (every non-default case label). -/
def supportedTag (t : AttrType) : Bool :=
  t = tInt || t = tIntp || t = tFloat || t = tFloatp ||
  t = tVec2 || t = tVec2p || t = tVec3 || t = tVec3p ||
  t = tVec4 || t = tVec4p || t = tMat2 || t = tMat2p ||
  t = tMat23 || t = tMat23p || t = tMat24 || t = tMat24p ||
  t = tMat3 || t = tMat3p || t = tMat32 || t = tMat32p ||
  t = tMat34 || t = tMat34p || t = tMat4 || t = tMat4p ||
  t = tMat42 || t = tMat42p || t = tMat43 || t = tMat43p

/-- Go slice indexing `xs[i]` with an `int` index: returns the element
when `0 <= i < len(xs)`, otherwise panics with the runtime range error. -/
def goIndex {α : Type} (xs : List α) (i : Int) : GoOutcome α :=
  if h : 0 ≤ i ∧ i.toNat < xs.length then .ret (xs.get ⟨i.toNat, h.2⟩)
  else .panic "runtime error: index out of range"

/-- The Go wrapper struct `Compute`.  The embedded binder carries
`restoreLoc = gl.CURRENT_PROGRAM` and a bind function calling
`gl.UseProgram`; of its fields only the owned object id `obj` is data, so
it is inlined here as `programObj`. -/
structure Compute where
  programObj : Nat
  vertexFmt : AttrFormat
  uniformFmt : AttrFormat
  uniformLoc : List Int
deriving DecidableEq

/-- Effects performed by a reclamation hook on the thread that invokes it:
the mainthread submissions it makes and the GL calls it issues directly
on that thread (without going through the dispatch gate). -/
structure HookEffect where
  submissions : List MainthreadCall
  directGL : List GLCall
deriving DecidableEq

/-- `(*Compute).delete`: submits, via the non-blocking
`mainthread.CallNonBlock`, a job that runs `gl.DeleteProgram` on the
program object; it performs no GL call itself. -/
def Compute.delete (s : Compute) : HookEffect :=
  { submissions := [MainthreadCall.callNonBlock [GLCall.deleteProgram s.programObj]],
    directGL := [] }

/-- The reads NewCompute performs from the GL context: compile status and
info log as a function of the compiled source text, link status and log of
the one program link, uniform locations by (NUL-terminated) name, and the
identifiers the successive create calls return. -/
structure GLEnv where
  compileOK : String → Bool
  compileLog : String → String
  linkOK : Bool
  linkLog : String
  uniformLoc : String → Int
  vId : Nat
  fId : Nat
  cId : Nat
  progId : Nat

/-- Result of running NewCompute: the Go return value `(*Compute, error)`
as an `Except`, the trace of GL calls performed during the call (deferred
calls included, run LIFO at exit), and the finalizer registered by
`runtime.SetFinalizer`, when one was registered. -/
structure NewComputeOut where
  result : Except String Compute
  calls : List GLCall
  finalizer : Option (Compute → HookEffect)

/-- The package-level GLSL source `computeShader` (braces escaped). -/
def computeShader : String := "
#version 330 core

#extension GL_ARB_compute_shader : enable
#extension GL_ARB_shader_storage_buffer_object : enable

precision highp sampler2D;

layout( std140, binding=1 ) buffer Pos \x7b
    vec2 pos[];
\x7d;

layout( std140, binding=2 ) buffer Vel \x7b
    vec2 vel[];
\x7d;

layout(local_size_x = WORK_GROUP_SIZE,  local_size_y = 1, local_size_z = 1) in;

// compute shader to update particles
void main() \x7b
    uint i = gl_GlobalInvocationID.x;
	uint numParticles = 1024;
	float damping = 0.95;
    // thread block size may not be exact multiple of number of particles
    if (i >= numParticles) return;

    // read particle position and velocity from buffers
    vec2 p = pos[i].xy;
    vec2 v = vel[i].xy;

    // integrate
    p += v;
    v *= damping;

    // write new values
    pos[i] = p;
    vel[i] = v;
\x7d
"

/-- The package-level GLSL source `computeVertexShader`. -/
def computeVertexShader : String := "
#version 330 core

in vec2 position;
in vec4 color;
in vec2 texCoords;
in float intensity;

out vec4 Color;
out vec2 texcoords;
out float Intensity;

uniform mat3 u_transform;
uniform vec4 u_bounds;

void main() \x7b
	vec2 transPos = (u_transform * vec3(position, 1.0)).xy;
	vec2 normPos = (transPos - u_bounds.xy) / u_bounds.zw * 2 - vec2(1, 1);
	gl_Position = vec4(normPos, 0.0, 1.0);
	Color = color;
	texcoords = texCoords;
	Intensity = intensity;
\x7d
"

/-- The package-level GLSL source `computeFragmentShader`. -/
def computeFragmentShader : String := "
#version 330 core

in vec4 Color;
in vec2 texcoords;
in float Intensity;

out vec4 fragColor;

uniform vec4 u_colormask;
uniform vec4 u_texbounds;
uniform sampler2D u_texture;

void main() \x7b
	if (Intensity == 0) \x7b
		fragColor = u_colormask * Color;
	\x7d else \x7b
		fragColor = vec4(0, 0, 0, 0);
		fragColor += (1 - Intensity) * Color;
		vec2 t = (texcoords - u_texbounds.xy) / u_texbounds.zw;
		fragColor += Intensity * Color * texture(u_texture, t);
		fragColor *= u_colormask;
	\x7d
\x7d
"

/-- `NewCompute(vertexFmt, uniformFmt, vertexShader, fragmentShader)`.

Follows the Go control flow block by block.  Note that, as in the source,
the compiled sources are the package-level constants `computeVertexShader`
/ `computeFragmentShader` / `computeShader`: the two string parameters are
never read.  Each `defer gl.DeleteShader(...)` is registered only after
the corresponding compile-status check has passed, so on an error return
exactly the previously registered deletions run, newest first; on success
all three run after the finalizer is registered.  The C-string `free`
calls deferred by `gl.Strs` are not GL calls and are not traced. -/
def NewCompute (env : GLEnv) (vertexFmt uniformFmt : AttrFormat)
    (vertexShader fragmentShader : String) : NewComputeOut :=
  let vshader := env.vId
  let vCalls : List GLCall :=
    [.createShader glVERTEX_SHADER, .shaderSource vshader computeVertexShader,
     .compileShader vshader]
  if env.compileOK computeVertexShader = false then
    { result := .error ("error compiling vertex shader: " ++ env.compileLog computeVertexShader),
      calls := vCalls,
      finalizer := none }
  else
    let fshader := env.fId
    let fCalls : List GLCall := vCalls ++
      [.createShader glFRAGMENT_SHADER, .shaderSource fshader computeFragmentShader,
       .compileShader fshader]
    if env.compileOK computeFragmentShader = false then
      { result := .error ("error compiling fragment shader: " ++ env.compileLog computeFragmentShader),
        calls := fCalls ++ [.deleteShader vshader],
        finalizer := none }
    else
      let cshader := env.cId
      let cCalls : List GLCall := fCalls ++
        [.createShader glCOMPUTE_SHADER, .shaderSource cshader computeShader,
         .compileShader cshader]
      if env.compileOK computeShader = false then
        { result := .error ("error compiling compute shader: " ++ env.compileLog computeShader),
          calls := cCalls ++ [.deleteShader fshader, .deleteShader vshader],
          finalizer := none }
      else
        let program := env.progId
        let pCalls : List GLCall := cCalls ++
          [.createProgram, .attachShader program vshader, .attachShader program fshader,
           .attachShader program cshader, .linkProgram program]
        if env.linkOK = false then
          { result := .error ("error linking shader program: " ++ env.linkLog),
            calls := pCalls ++ [.deleteShader cshader, .deleteShader fshader, .deleteShader vshader],
            finalizer := none }
        else
          let uCalls : List GLCall :=
            uniformFmt.map (fun u => .getUniformLocation program (u.name ++ "\x00"))
          { result := .ok
              { programObj := program,
                vertexFmt := vertexFmt,
                uniformFmt := uniformFmt,
                uniformLoc := uniformFmt.map (fun u => env.uniformLoc (u.name ++ "\x00")) },
            calls := pCalls ++ uCalls ++
              [.deleteShader cshader, .deleteShader fshader, .deleteShader vshader],
            finalizer := some Compute.delete }

/-- The `switch s.uniformFmt[uniform].Type` statement of `SetUniformAttr`,
given the (already range-checked) location and the supplied value.  Each
supported case performs the corresponding Go type assertion — panicking on
any other dynamic type — and issues the matching gl.Uniform* call; the
default case is the explicit panic of the source.  A successful switch
falls through to `return true`. -/
def uniformSwitch (loc : Int) (t : AttrType) (value : GLValue) :
    GoOutcome Bool × List GLCall :=
  if t = tInt then
    match value with
    | .vInt32 v => (.ret true, [.uniform1iv loc v])
    | _ => (.panic "interface conversion", [])
  else if t = tIntp then
    match value with
    | .vPInt32 v => (.ret true, [.uniform1iv loc v])
    | _ => (.panic "interface conversion", [])
  else if t = tFloat then
    match value with
    | .vFloat32 v => (.ret true, [.uniform1fv loc v])
    | _ => (.panic "interface conversion", [])
  else if t = tFloatp then
    match value with
    | .vPFloat32 v => (.ret true, [.uniform1fv loc v])
    | _ => (.panic "interface conversion", [])
  else if t = tVec2 then
    match value with
    | .vVec2 v => (.ret true, [.uniform2fv loc v])
    | _ => (.panic "interface conversion", [])
  else if t = tVec2p then
    match value with
    | .vPVec2 v => (.ret true, [.uniform2fv loc v])
    | _ => (.panic "interface conversion", [])
  else if t = tVec3 then
    match value with
    | .vVec3 v => (.ret true, [.uniform3fv loc v])
    | _ => (.panic "interface conversion", [])
  else if t = tVec3p then
    match value with
    | .vPVec3 v => (.ret true, [.uniform3fv loc v])
    | _ => (.panic "interface conversion", [])
  else if t = tVec4 then
    match value with
    | .vVec4 v => (.ret true, [.uniform4fv loc v])
    | _ => (.panic "interface conversion", [])
  else if t = tVec4p then
    match value with
    | .vPVec4 v => (.ret true, [.uniform4fv loc v])
    | _ => (.panic "interface conversion", [])
  else if t = tMat2 then
    match value with
    | .vMat2 v => (.ret true, [.uniformMatrix2fv loc v])
    | _ => (.panic "interface conversion", [])
  else if t = tMat2p then
    match value with
    | .vPMat2 v => (.ret true, [.uniformMatrix2fv loc v])
    | _ => (.panic "interface conversion", [])
  else if t = tMat23 then
    match value with
    | .vMat23 v => (.ret true, [.uniformMatrix2x3fv loc v])
    | _ => (.panic "interface conversion", [])
  else if t = tMat23p then
    match value with
    | .vPMat23 v => (.ret true, [.uniformMatrix2x3fv loc v])
    | _ => (.panic "interface conversion", [])
  else if t = tMat24 then
    match value with
    | .vMat24 v => (.ret true, [.uniformMatrix2x4fv loc v])
    | _ => (.panic "interface conversion", [])
  else if t = tMat24p then
    match value with
    | .vPMat24 v => (.ret true, [.uniformMatrix2x4fv loc v])
    | _ => (.panic "interface conversion", [])
  else if t = tMat3 then
    match value with
    | .vMat3 v => (.ret true, [.uniformMatrix3fv loc v])
    | _ => (.panic "interface conversion", [])
  else if t = tMat3p then
    match value with
    | .vPMat3 v => (.ret true, [.uniformMatrix3fv loc v])
    | _ => (.panic "interface conversion", [])
  else if t = tMat32 then
    match value with
    | .vMat32 v => (.ret true, [.uniformMatrix3x2fv loc v])
    | _ => (.panic "interface conversion", [])
  else if t = tMat32p then
    match value with
    | .vPMat32 v => (.ret true, [.uniformMatrix3x2fv loc v])
    | _ => (.panic "interface conversion", [])
  else if t = tMat34 then
    match value with
    | .vMat34 v => (.ret true, [.uniformMatrix3x4fv loc v])
    | _ => (.panic "interface conversion", [])
  else if t = tMat34p then
    match value with
    | .vPMat34 v => (.ret true, [.uniformMatrix3x4fv loc v])
    | _ => (.panic "interface conversion", [])
  else if t = tMat4 then
    match value with
    | .vMat4 v => (.ret true, [.uniformMatrix4fv loc v])
    | _ => (.panic "interface conversion", [])
  else if t = tMat4p then
    match value with
    | .vPMat4 v => (.ret true, [.uniformMatrix4fv loc v])
    | _ => (.panic "interface conversion", [])
  else if t = tMat42 then
    match value with
    | .vMat42 v => (.ret true, [.uniformMatrix4x2fv loc v])
    | _ => (.panic "interface conversion", [])
  else if t = tMat42p then
    match value with
    | .vPMat42 v => (.ret true, [.uniformMatrix4x2fv loc v])
    | _ => (.panic "interface conversion", [])
  else if t = tMat43 then
    match value with
    | .vMat43 v => (.ret true, [.uniformMatrix4x3fv loc v])
    | _ => (.panic "interface conversion", [])
  else if t = tMat43p then
    match value with
    | .vPMat43 v => (.ret true, [.uniformMatrix4x3fv loc v])
    | _ => (.panic "interface conversion", [])
  else
    (.panic "set uniform attr: invalid attribute type", [])

/-- `(*Compute).SetUniformAttr(uniform, value)`.  In source order: index
`s.uniformLoc[uniform]` (panicking on an out-of-range index), return
`false` when the stored location is negative, then index
`s.uniformFmt[uniform]` and run the type switch.  The result pairs the Go
outcome with the trace of GL calls performed. -/
def SetUniformAttr (s : Compute) (uniform : Int) (value : GLValue) :
    GoOutcome Bool × List GLCall :=
  match goIndex s.uniformLoc uniform with
  | .panic m => (.panic m, [])
  | .ret loc =>
    if loc < 0 then (.ret false, [])
    else
      match goIndex s.uniformFmt uniform with
      | .panic m => (.panic m, [])
      | .ret a => uniformSwitch loc a.type value

/-- Modelled from the spec: the repository file util.go that declares the
`binder` type used by `Compute.program` is not under src/.  Per spec
section 4.1 a binder remembers its own object id, a nesting depth and, for
the outermost bind only, the id that was globally active before it. -/
structure Binder where
  obj : Nat
  depth : Nat
  saved : Nat
deriving DecidableEq

/-- A binder together with the single piece of global context state it
manages: the currently active identifier for its object kind (for a
Compute program, the id `gl.Get(gl.CURRENT_PROGRAM)` would report). -/
structure BindState where
  active : Nat
  binder : Binder
deriving DecidableEq

/-- Modelled from the spec: `binder.bind()`.  On the outermost bind it
reads the currently active id, remembers it, and makes its own object
active; on a nested re-entry it only increments the nesting depth, without
re-querying global state. -/
def bindStep (st : BindState) : BindState :=
  if st.binder.depth = 0 then
    { active := st.binder.obj,
      binder := { st.binder with depth := 1, saved := st.active } }
  else
    { active := st.binder.obj,
      binder := { st.binder with depth := st.binder.depth + 1 } }

/-- Modelled from the spec: `binder.restore()`.  Decrements the nesting
depth; only when the depth returns to zero does it re-activate the id
remembered by the outermost bind. -/
def restoreStep (st : BindState) : BindState :=
  if st.binder.depth = 1 then
    { active := st.binder.saved,
      binder := { st.binder with depth := 0 } }
  else
    { st with binder := { st.binder with depth := st.binder.depth - 1 } }

/-- `Compute.Begin` binds the shader program: `s.program.bind()`. -/
def Compute.Begin (st : BindState) : BindState := bindStep st

/-- `Compute.End` unbinds the shader program and restores the previous
one: `s.program.restore()`. -/
def Compute.End (st : BindState) : BindState := restoreStep st

/-- One bind or restore operation on a binder. -/
inductive BOp where
  | bindB
  | restoreB
deriving DecidableEq

/-- Run one binder operation. -/
def binderStep (st : BindState) : BOp → BindState
  | .bindB => bindStep st
  | .restoreB => restoreStep st

/-- Run a sequence of binder operations left to right. -/
def binderRun (st : BindState) : List BOp → BindState
  | [] => st
  | op :: ops => binderRun (binderStep st op) ops

/-- Proper nesting of a bind/restore sequence relative to a current
nesting depth: every restore closes an open bind and every bind is
eventually closed, innermost first. -/
def balancedFrom : Nat → List BOp → Bool
  | d, [] => d = 0
  | d, BOp.bindB :: ops => balancedFrom (d + 1) ops
  | d, BOp.restoreB :: ops => decide (0 < d) && balancedFrom (d - 1) ops

/-- Modelled from the spec: the repository file vertexslice.go that
declares the growable vertex buffer is not under src/.  Per spec sections
3 and 4.4 a Growable Buffer owns a context-side store together with a
capacity and a logical length with `length ≤ capacity`; the store is
modelled one slot per vertex, each slot an opaque bit pattern (the byte
stride multiplier is a constant factor the claims never inspect). -/
structure GrowableBuffer where
  capacity : Nat
  length : Nat
  store : List Nat
deriving DecidableEq

/-- Well-formedness of a Growable Buffer: the logical length is bounded by
the capacity and the context-side store has exactly `capacity` slots. -/
def GrowableBuffer.wf (b : GrowableBuffer) : Prop :=
  b.length ≤ b.capacity ∧ b.store.length = b.capacity

/-- Modelled from the spec: `reserve(newCapacity)`.  If the requested
capacity exceeds the current one, allocate a new store of the requested
size, copy the first `length` vertices from the old store (fresh slots are
zero-initialised) and switch to it; otherwise do nothing. -/
def GrowableBuffer.reserve (b : GrowableBuffer) (newCapacity : Nat) : GrowableBuffer :=
  if b.capacity < newCapacity then
    { capacity := newCapacity,
      length := b.length,
      store := b.store.take b.length ++ List.replicate (newCapacity - b.length) 0 }
  else b

/-- One operation in the lifetime of a constructed Compute wrapper, after
NewCompute has returned it: a SetUniformAttr call, a Begin/End pair
member, or the one reclamation-hook invocation the runtime may perform
when the wrapper becomes unreachable. -/
inductive LifeOp where
  | setU (uniform : Int) (value : GLValue)
  | beginOp
  | endOp (prev : Nat)
  | finalize
deriving DecidableEq

/-- Mainthread submissions an operation makes.  Only the reclamation hook
submits anything; all other operations run directly on the graphics
thread. -/
def opSubmissions (s : Compute) : LifeOp → List MainthreadCall
  | .finalize => (Compute.delete s).submissions
  | _ => []

/-- GL calls an operation issues directly on the thread running it.
`Begin`/`End` drive the binder, whose bind function is `gl.UseProgram`
(`endOp` carries the previously active id the binder restores); the
reclamation hook issues none. -/
def opDirectGL (s : Compute) : LifeOp → List GLCall
  | .setU u v => (SetUniformAttr s u v).2
  | .beginOp => [.useProgram s.programObj]
  | .endOp prev => [.useProgram prev]
  | .finalize => (Compute.delete s).directGL

/-- All mainthread submissions of a lifetime trace. -/
def lifeSubmissions (s : Compute) (ops : List LifeOp) : List MainthreadCall :=
  (ops.map (opSubmissions s)).flatten

/-- All directly issued GL calls of a lifetime trace. -/
def lifeDirectGL (s : Compute) (ops : List LifeOp) : List GLCall :=
  (ops.map (opDirectGL s)).flatten

/-- Whether a mainthread submission carries a job that deletes program
`id` when it eventually runs on the graphics thread. -/
def jobDeletes (id : Nat) : MainthreadCall → Bool
  | .call job => job.contains (GLCall.deleteProgram id)
  | .callNonBlock job => job.contains (GLCall.deleteProgram id)

/-- Number of submitted jobs that delete program `id`. -/
def deleteJobCount (id : Nat) (subs : List MainthreadCall) : Nat :=
  (subs.filter (jobDeletes id)).length

/-- The construction failure condition of NewCompute: some compiled stage
fails its compile-status check or the program fails its link-status
check. -/
def buildFailed (env : GLEnv) : Prop :=
  env.compileOK computeVertexShader = false ∨
  env.compileOK computeFragmentShader = false ∨
  env.compileOK computeShader = false ∨
  env.linkOK = false

/-- All stage compiles and the link succeed. -/
def buildOK (env : GLEnv) : Prop :=
  env.compileOK computeVertexShader = true ∧
  env.compileOK computeFragmentShader = true ∧
  env.compileOK computeShader = true ∧
  env.linkOK = true

/-- The GL calls a successful SetUniformAttr switch case may issue: the
gl.Uniform* family. -/
def isUniformCall : GLCall → Bool
  | .uniform1iv _ _ => true
  | .uniform1fv _ _ => true
  | .uniform2fv _ _ => true
  | .uniform3fv _ _ => true
  | .uniform4fv _ _ => true
  | .uniformMatrix2fv _ _ => true
  | .uniformMatrix2x3fv _ _ => true
  | .uniformMatrix2x4fv _ _ => true
  | .uniformMatrix3fv _ _ => true
  | .uniformMatrix3x2fv _ _ => true
  | .uniformMatrix3x4fv _ _ => true
  | .uniformMatrix4fv _ _ => true
  | .uniformMatrix4x2fv _ _ => true
  | .uniformMatrix4x3fv _ _ => true
  | _ => false

/-- A context in which every compile and the link succeed and every
uniform name resolves to the absent sentinel location -1. -/
def envAllOK : GLEnv :=
  ⟨fun _ => true, fun _ => "", true, "", fun _ => -1, 1, 2, 3, 4⟩

/-- A context in which every shader source fails to compile, with a fixed
diagnostic log. -/
def envVertexFail : GLEnv :=
  ⟨fun _ => false, fun _ => "BADSYNTAX", true, "", fun _ => 0, 1, 2, 3, 4⟩

/-- A context in which exactly the compute-shader source fails to
compile. -/
def envComputeFail : GLEnv :=
  ⟨fun s => !(s == computeShader), fun _ => "", true, "", fun _ => 0, 1, 2, 3, 4⟩

/-- A deliberately invalid shader source. -/
def badComputeSrc : String := "!!!this is not GLSL!!!"

/-- A context in which the invalid source `badComputeSrc` cannot compile
while every other source compiles and links fine. -/
def envBadSrc : GLEnv :=
  ⟨fun s => !(s == badComputeSrc), fun _ => "", true, "", fun _ => 0, 1, 2, 3, 4⟩

/-- A wrapper whose one uniform resolved to location 0. -/
def shIndexed : Compute := ⟨4, [], [⟨"u", tInt⟩], [0]⟩

/-- A wrapper whose one uniform, of attribute type Int, resolved to
location 2. -/
def shResolved : Compute := ⟨4, [], [⟨"u", tInt⟩], [2]⟩

/-- A wrapper with an empty uniform format. -/
def shBare : Compute := ⟨4, [], [], []⟩

/-- A buffer of capacity 4 holding 2 live vertices. -/
def bufFour : GrowableBuffer := ⟨4, 2, [7, 8, 0, 0]⟩

/-- A binder for object 9, currently unbound, with object 5 globally
active. -/
def bindFive : BindState := ⟨5, ⟨9, 0, 0⟩⟩

/-- A properly nested bind/restore sequence. -/
def opsNested : List BOp := [.bindB, .bindB, .restoreB, .bindB, .restoreB, .restoreB]

/-- A wrapper lifetime with one finalizer invocation. -/
def opsLife : List LifeOp := [.beginOp, .setU 0 (GLValue.vInt32 1), .finalize, .endOp 0]


/-- The gl.Uniform* call the switch case matching a given dynamic value
issues: determined by the value shape alone, with pointer variants using
the same call as their base type (used to characterise `uniformSwitch`
below). -/
def uniformCallOf (loc : Int) : GLValue → GLCall
  | .vInt32 v => .uniform1iv loc v
  | .vPInt32 v => .uniform1iv loc v
  | .vFloat32 v => .uniform1fv loc v
  | .vPFloat32 v => .uniform1fv loc v
  | .vVec2 v => .uniform2fv loc v
  | .vPVec2 v => .uniform2fv loc v
  | .vVec3 v => .uniform3fv loc v
  | .vPVec3 v => .uniform3fv loc v
  | .vVec4 v => .uniform4fv loc v
  | .vPVec4 v => .uniform4fv loc v
  | .vMat2 v => .uniformMatrix2fv loc v
  | .vPMat2 v => .uniformMatrix2fv loc v
  | .vMat23 v => .uniformMatrix2x3fv loc v
  | .vPMat23 v => .uniformMatrix2x3fv loc v
  | .vMat24 v => .uniformMatrix2x4fv loc v
  | .vPMat24 v => .uniformMatrix2x4fv loc v
  | .vMat3 v => .uniformMatrix3fv loc v
  | .vPMat3 v => .uniformMatrix3fv loc v
  | .vMat32 v => .uniformMatrix3x2fv loc v
  | .vPMat32 v => .uniformMatrix3x2fv loc v
  | .vMat34 v => .uniformMatrix3x4fv loc v
  | .vPMat34 v => .uniformMatrix3x4fv loc v
  | .vMat4 v => .uniformMatrix4fv loc v
  | .vPMat4 v => .uniformMatrix4fv loc v
  | .vMat42 v => .uniformMatrix4x2fv loc v
  | .vPMat42 v => .uniformMatrix4x2fv loc v
  | .vMat43 v => .uniformMatrix4x3fv loc v
  | .vPMat43 v => .uniformMatrix4x3fv loc v

theorem tag_supported (v : GLValue) : supportedTag v.tag = true := by
  cases v <;> rfl

set_option maxHeartbeats 1000000 in
theorem uniformSwitch_eq (loc : Int) (t : AttrType) (v : GLValue) :
    uniformSwitch loc t v =
      if supportedTag t = true then
        if v.tag = t then (.ret true, [uniformCallOf loc v])
        else (.panic "interface conversion", [])
      else (.panic "set uniform attr: invalid attribute type", []) := by
  by_cases hs : supportedTag t = true
  · rw [if_pos hs]
    simp only [supportedTag, Bool.or_eq_true, decide_eq_true_eq] at hs
    rcases hs with (((((((((((((((((((((((((((rfl | rfl) | rfl) | rfl) | rfl) | rfl) | rfl) | rfl) | rfl) | rfl) | rfl) | rfl) | rfl) | rfl) | rfl) | rfl) | rfl) | rfl) | rfl) | rfl) | rfl) | rfl) | rfl) | rfl) | rfl) | rfl) | rfl) | rfl) <;> cases v <;> rfl
  · rw [if_neg hs]
    simp only [supportedTag, Bool.or_eq_true, decide_eq_true_eq] at hs
    push_neg at hs
    obtain ⟨⟨⟨⟨⟨⟨⟨⟨⟨⟨⟨⟨⟨⟨⟨⟨⟨⟨⟨⟨⟨⟨⟨⟨⟨⟨⟨h1, h2⟩, h3⟩, h4⟩, h5⟩, h6⟩, h7⟩, h8⟩, h9⟩, h10⟩, h11⟩, h12⟩, h13⟩, h14⟩, h15⟩, h16⟩, h17⟩, h18⟩, h19⟩, h20⟩, h21⟩, h22⟩, h23⟩, h24⟩, h25⟩, h26⟩, h27⟩, h28⟩ := hs
    unfold uniformSwitch
    rw [if_neg h1, if_neg h2, if_neg h3, if_neg h4, if_neg h5, if_neg h6, if_neg h7, if_neg h8, if_neg h9, if_neg h10, if_neg h11, if_neg h12, if_neg h13, if_neg h14, if_neg h15, if_neg h16, if_neg h17, if_neg h18, if_neg h19, if_neg h20, if_neg h21, if_neg h22, if_neg h23, if_neg h24, if_neg h25, if_neg h26, if_neg h27, if_neg h28]

theorem uniformSwitch_mismatch (loc : Int) (t : AttrType) (v : GLValue)
    (h : v.tag ≠ t) :
    ∃ m, uniformSwitch loc t v = (.panic m, []) := by
  rw [uniformSwitch_eq]
  by_cases hs : supportedTag t = true
  · rw [if_pos hs, if_neg h]
    exact ⟨_, rfl⟩
  · rw [if_neg hs]
    exact ⟨_, rfl⟩

theorem uniformSwitch_shape (loc : Int) (t : AttrType) (v : GLValue) :
    uniformSwitch loc t v = (.ret true, [uniformCallOf loc v]) ∨
    ∃ m, uniformSwitch loc t v = (.panic m, []) := by
  rw [uniformSwitch_eq]
  by_cases hs : supportedTag t = true
  · by_cases hv : v.tag = t
    · rw [if_pos hs, if_pos hv]
      exact Or.inl rfl
    · rw [if_pos hs, if_neg hv]
      exact Or.inr ⟨_, rfl⟩
  · rw [if_neg hs]
    exact Or.inr ⟨_, rfl⟩

theorem uniformCallOf_not_delete (loc : Int) (v : GLValue) (id : Nat) :
    uniformCallOf loc v ≠ GLCall.deleteProgram id := by
  cases v <;> simp [uniformCallOf]

theorem setUniformAttr_no_delete (s : Compute) (u : Int) (v : GLValue) (id : Nat) :
    GLCall.deleteProgram id ∉ (SetUniformAttr s u v).2 := by
  unfold SetUniformAttr
  cases hl : goIndex s.uniformLoc u with
  | panic m => simp
  | ret loc =>
    by_cases hneg : loc < 0
    · simp [hneg]
    · cases hf : goIndex s.uniformFmt u with
      | panic m => simp [hneg]
      | ret a =>
        simp only [if_neg hneg]
        rcases uniformSwitch_shape loc a.type v with hc | ⟨m, hm⟩
        · rw [hc]
          simp only [List.mem_singleton]
          exact fun he => uniformCallOf_not_delete loc v id he.symm
        · rw [hm]
          simp

theorem binderRun_restores (a0 : Nat) :
    ∀ (ops : List BOp) (d : Nat) (st : BindState),
      st.binder.depth = d →
      (d = 0 → st.active = a0) →
      (0 < d → st.binder.saved = a0 ∧ st.active = st.binder.obj) →
      balancedFrom d ops = true →
      (binderRun st ops).active = a0 := by
  intro ops
  induction ops with
  | nil =>
    intro d st hd h0 _ hb
    have hd0 : d = 0 := by simpa [balancedFrom] using hb
    simpa [binderRun] using h0 hd0
  | cons op ops ih =>
    intro d st hd h0 hpos hb
    cases op with
    | bindB =>
      have hb2 : balancedFrom (d + 1) ops = true := by simpa [balancedFrom] using hb
      show (binderRun (bindStep st) ops).active = a0
      refine ih (d + 1) (bindStep st) ?_ (fun h => absurd h (Nat.succ_ne_zero d)) ?_ hb2
      · unfold bindStep
        split_ifs with h <;> simp_all
      · intro _
        unfold bindStep
        split_ifs with h
        · have : d = 0 := by omega
          exact ⟨by simpa using h0 this, rfl⟩
        · have : 0 < d := by omega
          exact ⟨by simpa using (hpos this).1, rfl⟩
    | restoreB =>
      have hb' : 0 < d ∧ balancedFrom (d - 1) ops = true := by
        simpa [balancedFrom] using hb
      show (binderRun (restoreStep st) ops).active = a0
      refine ih (d - 1) (restoreStep st) ?_ ?_ ?_ hb'.2
      · unfold restoreStep
        split_ifs with h <;> simp_all
      · intro hz
        unfold restoreStep
        split_ifs with h
        · simpa using (hpos hb'.1).1
        · have hd1 : st.binder.depth ≠ 1 := h
          have : 0 < d := hb'.1
          omega
      · intro hz
        unfold restoreStep
        split_ifs with h
        · omega
        · have : 0 < d := hb'.1
          exact ⟨by simpa using (hpos this).1, by simpa using (hpos this).2⟩

theorem deleteJobCount_lifetime (s : Compute) (ops : List LifeOp) :
    deleteJobCount s.programObj (lifeSubmissions s ops) = ops.count LifeOp.finalize := by
  induction ops with
  | nil => rfl
  | cons op ops ih =>
    have hstep : lifeSubmissions s (op :: ops) =
        opSubmissions s op ++ lifeSubmissions s ops := by
      simp [lifeSubmissions]
    rw [hstep]
    unfold deleteJobCount at *
    rw [List.filter_append, List.length_append, ih, List.count_cons]
    cases op <;> simp [opSubmissions, Compute.delete, jobDeletes, Nat.add_comm]

/-- Claim C3: for every properly nested sequence of bind and restore
operations on one binder — each bind matched by exactly one restore,
innermost first, as in nested Compute.Begin / Compute.End scopes — the
globally active identifier for the binder's object kind after the
outermost restore equals the identifier active immediately before the
outermost bind. -/
theorem binder_nesting_restores_active (st : BindState) (ops : List BOp)
    (hdepth : st.binder.depth = 0) (hbal : balancedFrom 0 ops = true) :
    (binderRun st ops).active = st.active :=
  binderRun_restores st.active ops 0 st hdepth (fun _ => rfl)
    (fun h => absurd h (Nat.lt_irrefl 0)) hbal

theorem binder_nesting_restores_active_witness :
    bindFive.binder.depth = 0 ∧ balancedFrom 0 opsNested = true ∧
    (binderRun bindFive opsNested).active = bindFive.active :=
  ⟨rfl, by decide, binder_nesting_restores_active bindFive opsNested rfl (by decide)⟩

/-- Claim C8: for a well-formed Growable Buffer, reserve with a request
above the current capacity yields capacity at least the request while the
first length vertices keep their exact prior contents; reserve with a
request at or below the current capacity is a no-op. -/
theorem reserve_grow_preserves (b : GrowableBuffer) (c : Nat) (hwf : b.wf) :
    (b.capacity < c →
      c ≤ (b.reserve c).capacity ∧
      (b.reserve c).store.take b.length = b.store.take b.length ∧
      (b.reserve c).length = b.length ∧
      (b.reserve c).wf) ∧
    (c ≤ b.capacity → b.reserve c = b) := by
  obtain ⟨hlen, hstore⟩ := hwf
  constructor
  · intro hlt
    unfold GrowableBuffer.reserve
    rw [if_pos hlt]
    have h1 : b.length ≤ (b.store.take b.length).length := by
      rw [List.length_take]
      omega
    refine ⟨le_refl c, ?_, rfl, ?_⟩
    · rw [List.take_append_of_le_length h1, List.take_take, Nat.min_self]
    · constructor
      · show b.length ≤ c
        omega
      · show (b.store.take b.length ++ List.replicate (c - b.length) 0).length = c
        simp only [List.length_append, List.length_take, List.length_replicate]
        omega
  · intro hle
    unfold GrowableBuffer.reserve
    rw [if_neg (by omega)]

theorem reserve_grow_preserves_witness :
    bufFour.wf ∧ 10 ≤ (bufFour.reserve 10).capacity ∧
    (bufFour.reserve 10).store.take bufFour.length = bufFour.store.take bufFour.length ∧
    bufFour.reserve 4 = bufFour := by
  have h := reserve_grow_preserves bufFour 10 ⟨by decide, by decide⟩
  have h4 := reserve_grow_preserves bufFour 4 ⟨by decide, by decide⟩
  exact ⟨⟨by decide, by decide⟩, (h.1 (by decide)).1, (h.1 (by decide)).2.1,
    h4.2 (by decide)⟩

/-- Claim C2: the reclamation hook NewCompute registers at construction is
the delete method, which never issues the context deletion call directly
and never makes a blocking submission on the invoking thread: it only
submits, through the non-blocking mainthread.CallNonBlock, a deletion job
that runs gl.DeleteProgram on the program identifier later, on the
graphics thread. -/
theorem delete_hook_nonblocking (env : GLEnv) (f1 f2 : AttrFormat) (vs fs : String)
    (hook : Compute → HookEffect)
    (hreg : (NewCompute env f1 f2 vs fs).finalizer = some hook) :
    hook = Compute.delete ∧
    ∀ s : Compute,
      (hook s).directGL = [] ∧
      (∀ job, MainthreadCall.call job ∉ (hook s).submissions) ∧
      (hook s).submissions =
        [MainthreadCall.callNonBlock [GLCall.deleteProgram s.programObj]] := by
  have hh : hook = Compute.delete := by
    unfold NewCompute at hreg
    split_ifs at hreg <;> simp_all
  subst hh
  refine ⟨rfl, fun s => ⟨rfl, ?_, rfl⟩⟩
  intro job hmem
  simp [Compute.delete] at hmem

theorem delete_hook_nonblocking_witness :
    (NewCompute envAllOK [] [] "" "").finalizer = some Compute.delete ∧
    (Compute.delete shBare).directGL = [] ∧
    (Compute.delete shBare).submissions =
      [MainthreadCall.callNonBlock [GLCall.deleteProgram shBare.programObj]] := by
  have h := delete_hook_nonblocking envAllOK [] [] "" "" Compute.delete rfl
  exact ⟨rfl, (h.2 shBare).1, (h.2 shBare).2.2⟩

/-- Claim C1: whenever a shader stage fails to compile or the program
fails to link, NewCompute returns no object and a structured error whose
message carries the raw diagnostic log verbatim (as its suffix, after a
fixed stage prefix), and registers no finalizer, so no usable object is
produced. -/
theorem newCompute_failure_reports_log (env : GLEnv) (f1 f2 : AttrFormat)
    (vs fs : String) (h : buildFailed env) :
    ∃ msg : String,
      (NewCompute env f1 f2 vs fs).result = .error msg ∧
      (NewCompute env f1 f2 vs fs).finalizer = none ∧
      ((env.compileOK computeVertexShader = false ∧
          msg = "error compiling vertex shader: " ++ env.compileLog computeVertexShader) ∨
       (env.compileOK computeVertexShader = true ∧
          env.compileOK computeFragmentShader = false ∧
          msg = "error compiling fragment shader: " ++ env.compileLog computeFragmentShader) ∨
       (env.compileOK computeVertexShader = true ∧
          env.compileOK computeFragmentShader = true ∧
          env.compileOK computeShader = false ∧
          msg = "error compiling compute shader: " ++ env.compileLog computeShader) ∨
       (env.compileOK computeVertexShader = true ∧
          env.compileOK computeFragmentShader = true ∧
          env.compileOK computeShader = true ∧ env.linkOK = false ∧
          msg = "error linking shader program: " ++ env.linkLog)) := by
  by_cases hv : env.compileOK computeVertexShader = false
  · refine ⟨"error compiling vertex shader: " ++ env.compileLog computeVertexShader,
      ?_, ?_, Or.inl ⟨hv, rfl⟩⟩ <;> simp [NewCompute, hv]
  · have hv' : env.compileOK computeVertexShader = true := by
      revert hv
      cases env.compileOK computeVertexShader <;> simp
    by_cases hf : env.compileOK computeFragmentShader = false
    · refine ⟨"error compiling fragment shader: " ++ env.compileLog computeFragmentShader,
        ?_, ?_, Or.inr (Or.inl ⟨hv', hf, rfl⟩)⟩ <;> simp [NewCompute, hv, hf]
    · have hf' : env.compileOK computeFragmentShader = true := by
        revert hf
        cases env.compileOK computeFragmentShader <;> simp
      by_cases hc : env.compileOK computeShader = false
      · refine ⟨"error compiling compute shader: " ++ env.compileLog computeShader,
          ?_, ?_, Or.inr (Or.inr (Or.inl ⟨hv', hf', hc, rfl⟩))⟩ <;> simp [NewCompute, hv, hf, hc]
      · have hc' : env.compileOK computeShader = true := by
          revert hc
          cases env.compileOK computeShader <;> simp
        have hl : env.linkOK = false := by
          rcases h with h | h | h | h <;> simp_all
        refine ⟨"error linking shader program: " ++ env.linkLog,
          ?_, ?_, Or.inr (Or.inr (Or.inr ⟨hv', hf', hc', hl, rfl⟩))⟩ <;>
          simp [NewCompute, hv, hf, hc, hl]

theorem newCompute_failure_reports_log_witness :
    buildFailed envVertexFail ∧
    (NewCompute envVertexFail [] [] "" "").result =
      .error ("error compiling vertex shader: " ++ "BADSYNTAX") ∧
    (NewCompute envVertexFail [] [] "" "").finalizer = none := by
  have h := newCompute_failure_reports_log envVertexFail [] [] "" "" (Or.inl rfl)
  obtain ⟨msg, hres, hfin, hcase⟩ := h
  rcases hcase with ⟨_, hmsg⟩ | ⟨hbad, _⟩ | ⟨hbad, _⟩ | ⟨hbad, _⟩
  · subst hmsg
    exact ⟨Or.inl rfl, hres, hfin⟩
  · exact absurd hbad (by decide)
  · exact absurd hbad (by decide)
  · exact absurd hbad (by decide)

theorem lifeDirectGL_no_delete (s : Compute) (ops : List LifeOp) (id : Nat) :
    GLCall.deleteProgram id ∉ lifeDirectGL s ops := by
  induction ops with
  | nil => simp [lifeDirectGL]
  | cons op ops ih =>
    intro hmem
    have hsplit : lifeDirectGL s (op :: ops) = opDirectGL s op ++ lifeDirectGL s ops := by
      simp [lifeDirectGL]
    rw [hsplit] at hmem
    rcases List.mem_append.mp hmem with hm | hm
    · cases op with
      | setU u v => exact setUniformAttr_no_delete s u v id hm
      | beginOp => simp [opDirectGL] at hm
      | endOp p => simp [opDirectGL] at hm
      | finalize => simp [opDirectGL, Compute.delete] at hm
    · exact ih hm

theorem newCompute_no_deleteProgram (env : GLEnv) (f1 f2 : AttrFormat)
    (vs fs : String) (id : Nat) :
    GLCall.deleteProgram id ∉ (NewCompute env f1 f2 vs fs).calls := by
  unfold NewCompute
  split_ifs <;> simp [List.mem_map]

/-- Claim C7: during any wrapper lifetime in which the reclamation hook
fires at most once, at most one deletion job for the wrapper's program
identifier is ever submitted to the dispatch gate; no lifetime operation
issues the program deletion directly, and construction itself never
deletes a program either. -/
theorem at_most_one_delete_job (s : Compute) (ops : List LifeOp)
    (hfin : ops.count LifeOp.finalize ≤ 1)
    (env : GLEnv) (f1 f2 : AttrFormat) (vs fs : String) :
    deleteJobCount s.programObj (lifeSubmissions s ops) ≤ 1 ∧
    (∀ id, GLCall.deleteProgram id ∉ lifeDirectGL s ops) ∧
    (∀ id, GLCall.deleteProgram id ∉ (NewCompute env f1 f2 vs fs).calls) :=
  ⟨by rw [deleteJobCount_lifetime]; exact hfin,
   fun id => lifeDirectGL_no_delete s ops id,
   fun id => newCompute_no_deleteProgram env f1 f2 vs fs id⟩

theorem at_most_one_delete_job_witness :
    opsLife.count LifeOp.finalize ≤ 1 ∧
    deleteJobCount shBare.programObj (lifeSubmissions shBare opsLife) ≤ 1 ∧
    GLCall.deleteProgram shBare.programObj ∉ lifeDirectGL shBare opsLife := by
  have h := at_most_one_delete_job shBare opsLife (by decide) envAllOK [] [] "" ""
  exact ⟨by decide, h.1, h.2.1 shBare.programObj⟩

/-- Claim C10: the deferred deletion of each shader stage is registered
only after that stage's compile-status check passes: when a stage fails to
compile, the identifiers of the stages that compiled before it are deleted
on the error return, while the failing stage's own identifier is not
deleted before returning. -/
theorem failed_stage_not_deleted (env : GLEnv) (f1 f2 : AttrFormat) (vs fs : String)
    (hvf : env.vId ≠ env.fId) (hvc : env.vId ≠ env.cId) (hfc : env.fId ≠ env.cId) :
    (env.compileOK computeVertexShader = false →
       ∀ id, GLCall.deleteShader id ∉ (NewCompute env f1 f2 vs fs).calls) ∧
    (env.compileOK computeVertexShader = true →
       env.compileOK computeFragmentShader = false →
       GLCall.deleteShader env.vId ∈ (NewCompute env f1 f2 vs fs).calls ∧
       GLCall.deleteShader env.fId ∉ (NewCompute env f1 f2 vs fs).calls) ∧
    (env.compileOK computeVertexShader = true →
       env.compileOK computeFragmentShader = true →
       env.compileOK computeShader = false →
       GLCall.deleteShader env.vId ∈ (NewCompute env f1 f2 vs fs).calls ∧
       GLCall.deleteShader env.fId ∈ (NewCompute env f1 f2 vs fs).calls ∧
       GLCall.deleteShader env.cId ∉ (NewCompute env f1 f2 vs fs).calls) := by
  refine ⟨?_, ?_, ?_⟩
  · intro hv id
    simp [NewCompute, hv]
  · intro hv hf
    refine ⟨?_, ?_⟩ <;> simp [NewCompute, hv, hf, Ne.symm hvf]
  · intro hv hf hc
    refine ⟨?_, ?_, ?_⟩ <;>
      simp [NewCompute, hv, hf, hc, Ne.symm hvc, Ne.symm hfc]

set_option maxRecDepth 8192 in
theorem failed_stage_not_deleted_witness :
    envComputeFail.compileOK computeVertexShader = true ∧
    envComputeFail.compileOK computeFragmentShader = true ∧
    envComputeFail.compileOK computeShader = false ∧
    GLCall.deleteShader envComputeFail.vId ∈ (NewCompute envComputeFail [] [] "" "").calls ∧
    GLCall.deleteShader envComputeFail.fId ∈ (NewCompute envComputeFail [] [] "" "").calls ∧
    GLCall.deleteShader envComputeFail.cId ∉ (NewCompute envComputeFail [] [] "" "").calls := by
  have h := failed_stage_not_deleted envComputeFail [] [] "" ""
    (by decide) (by decide) (by decide)
  have h3 := h.2.2 (by decide) (by decide) (by decide)
  exact ⟨by decide, by decide, by decide, h3.1, h3.2.1, h3.2.2⟩

/-- Claim C5: a uniform name absent from the linked program (negative
resolved location) is non-fatal: construction still succeeds, records the
sentinel negative location for that entry, and every subsequent
SetUniformAttr on that entry returns false performing no GL call. -/
theorem absent_uniform_nonfatal (env : GLEnv) (f1 f2 : AttrFormat) (vs fs : String)
    (hok : buildOK env) (i : Nat) (hi : i < f2.length)
    (habs : env.uniformLoc ((f2.get ⟨i, hi⟩).name ++ "\x00") < 0) :
    ∃ sh, (NewCompute env f1 f2 vs fs).result = .ok sh ∧
      goIndex sh.uniformLoc (i : Int) =
        .ret (env.uniformLoc ((f2.get ⟨i, hi⟩).name ++ "\x00")) ∧
      ∀ v, SetUniformAttr sh (i : Int) v = (.ret false, []) := by
  obtain ⟨hv, hf, hc, hl⟩ := hok
  have hgi : goIndex (f2.map fun u => env.uniformLoc (u.name ++ "\x00")) (i : Int) =
      .ret (env.uniformLoc ((f2.get ⟨i, hi⟩).name ++ "\x00")) := by
    have hcond : 0 ≤ (i : Int) ∧
        (i : Int).toNat < (f2.map fun u => env.uniformLoc (u.name ++ "\x00")).length := by
      simp only [List.length_map]
      omega
    unfold goIndex
    rw [dif_pos hcond]
    simp [List.get_eq_getElem, List.getElem_map]
  refine ⟨⟨env.progId, f1, f2, f2.map fun u => env.uniformLoc (u.name ++ "\x00")⟩, ?_, hgi, ?_⟩
  · simp [NewCompute, hv, hf, hc, hl]
  · intro v
    unfold SetUniformAttr
    rw [hgi]
    simp only [if_pos habs]

theorem absent_uniform_nonfatal_witness :
    buildOK envAllOK ∧
    envAllOK.uniformLoc ("u" ++ "\x00") < 0 ∧
    ∃ sh, (NewCompute envAllOK [] [⟨"u", tFloat⟩] "" "").result = .ok sh ∧
      goIndex sh.uniformLoc ((0 : Nat) : Int) =
        .ret (envAllOK.uniformLoc (((([⟨"u", tFloat⟩] : AttrFormat).get
          ⟨0, by decide⟩).name ++ "\x00"))) ∧
      ∀ v, SetUniformAttr sh ((0 : Nat) : Int) v = (.ret false, []) := by
  refine ⟨⟨rfl, rfl, rfl, rfl⟩, by decide, ?_⟩
  exact absent_uniform_nonfatal envAllOK [] [⟨"u", tFloat⟩] "" ""
    ⟨rfl, rfl, rfl, rfl⟩ 0 (by decide) (by decide)

/-- Claim C9: SetUniformAttr first indexes the location slice, so any
index outside the uniform format panics with the runtime range error
before any other check; in range, both indexing operations succeed, and a
false return can only arise from a negative (absent) resolved location,
never from an invalid index. -/
theorem setUniformAttr_index_contract (s : Compute) (u : Int) (v : GLValue)
    (hlen : s.uniformLoc.length = s.uniformFmt.length) :
    ((u < 0 ∨ (s.uniformFmt.length : Int) ≤ u) →
       SetUniformAttr s u v = (.panic "runtime error: index out of range", [])) ∧
    (0 ≤ u → u < (s.uniformFmt.length : Int) →
       (∃ loc, goIndex s.uniformLoc u = .ret loc) ∧
       ∃ a, goIndex s.uniformFmt u = .ret a) ∧
    (∀ cs, SetUniformAttr s u v = (.ret false, cs) →
       ∃ loc, goIndex s.uniformLoc u = .ret loc ∧ loc < 0) := by
  refine ⟨?_, ?_, ?_⟩
  · intro hout
    have hcond : ¬(0 ≤ u ∧ u.toNat < s.uniformLoc.length) := by
      rw [hlen]
      omega
    unfold SetUniformAttr goIndex
    rw [dif_neg hcond]
  · intro h0 hlt
    constructor
    · have hcond : 0 ≤ u ∧ u.toNat < s.uniformLoc.length := by
        rw [hlen]
        omega
      unfold goIndex
      rw [dif_pos hcond]
      exact ⟨_, rfl⟩
    · have hcond : 0 ≤ u ∧ u.toNat < s.uniformFmt.length := by omega
      unfold goIndex
      rw [dif_pos hcond]
      exact ⟨_, rfl⟩
  · intro cs hres
    unfold SetUniformAttr at hres
    cases hgi : goIndex s.uniformLoc u with
    | panic m =>
      rw [hgi] at hres
      simp at hres
    | ret loc =>
      rw [hgi] at hres
      by_cases hneg : loc < 0
      · exact ⟨loc, rfl, hneg⟩
      · exfalso
        cases hgf : goIndex s.uniformFmt u with
        | panic m =>
          rw [hgf] at hres
          simp [hneg] at hres
        | ret a =>
          rw [hgf] at hres
          rcases uniformSwitch_shape loc a.type v with hc | ⟨m, hm⟩
          · simp [hneg, hc] at hres
          · simp [hneg, hm] at hres

theorem setUniformAttr_index_contract_witness :
    shIndexed.uniformLoc.length = shIndexed.uniformFmt.length ∧
    SetUniformAttr shIndexed 5 (GLValue.vInt32 0) =
      (.panic "runtime error: index out of range", []) := by
  have h := setUniformAttr_index_contract shIndexed 5 (GLValue.vInt32 0) rfl
  exact ⟨rfl, h.1 (Or.inr (by decide))⟩

/-- Claim C6: SetUniformAttr on a resolved (non-absent) uniform panics and
issues no uniform-setting context call whenever the supplied value's
dynamic type does not match the slot's declared Attr type, or the declared
tag lies outside the closed supported set; the value is never silently
coerced or truncated. -/
theorem setUniformAttr_mismatch_panics (s : Compute) (u : Int) (v : GLValue)
    (loc : Int) (a : Attr)
    (hloc : goIndex s.uniformLoc u = .ret loc)
    (hnneg : ¬loc < 0)
    (ha : goIndex s.uniformFmt u = .ret a)
    (hmis : v.tag ≠ a.type ∨ supportedTag a.type = false) :
    ∃ m, SetUniformAttr s u v = (.panic m, []) := by
  have hne : v.tag ≠ a.type := by
    rcases hmis with h | h
    · exact h
    · intro he
      rw [← he, tag_supported v] at h
      exact Bool.noConfusion h
  obtain ⟨m, hm⟩ := uniformSwitch_mismatch loc a.type v hne
  refine ⟨m, ?_⟩
  unfold SetUniformAttr
  rw [hloc]
  simp only [if_neg hnneg]
  rw [ha]
  exact hm

theorem setUniformAttr_mismatch_panics_witness :
    goIndex shResolved.uniformLoc 0 = .ret 2 ∧
    ¬(2 : Int) < 0 ∧
    goIndex shResolved.uniformFmt 0 = .ret ⟨"u", tInt⟩ ∧
    (GLValue.vFloat32 0).tag ≠ tInt ∧
    ∃ m, SetUniformAttr shResolved 0 (GLValue.vFloat32 0) = (.panic m, []) :=
  ⟨by decide, by decide, by decide, by decide,
   setUniformAttr_mismatch_panics shResolved 0 (GLValue.vFloat32 0) 2 ⟨"u", tInt⟩
     (by decide) (by decide) (by decide) (Or.inl (by decide))⟩

set_option maxRecDepth 8192 in
/-- Claim C4 is refuted by the code: NewCompute never reads its
vertexShader and fragmentShader parameters — it always compiles the
package-level computeVertexShader, computeFragmentShader and computeShader
constants — so a construction given deliberately invalid source, in a
context where that source cannot compile but the package-level sources
can, still succeeds: no compile error is returned at all and the injected
fragment appears in no message.  The first conjunct shows the result is
entirely independent of the two source parameters; the remaining conjuncts
evaluate the failing input. -/
theorem newCompute_ignores_sources :
    (∀ (env : GLEnv) (f1 f2 : AttrFormat) (vs fs vs2 fs2 : String),
       NewCompute env f1 f2 vs fs = NewCompute env f1 f2 vs2 fs2) ∧
    envBadSrc.compileOK badComputeSrc = false ∧
    (NewCompute envBadSrc [] [] badComputeSrc badComputeSrc).result =
      .ok ⟨4, [], [], []⟩ := by
  exact ⟨fun env f1 f2 vs fs vs2 fs2 => rfl, by decide, rfl⟩
